import Mathlib

/-!
Verification of the webpack-gimbal-plugin core logic (src/index.js and the
extended variant in src/unnamed/part_000): the audit-result aggregation
pipeline (`processMessages` / `executeAudits`), the configuration merge in
the constructor, and the optimization-bailout extraction/filter pipeline in
`apply`'s `done` hook.

Shallow embedding conventions:
  * a JS `boolean | undefined` field is `Option Bool`; JS truthiness of such
    a value (`!result.success`) is `isTruthy`;
  * `compilation.errors` / `compilation.warnings` are lists of strings, and
    `push` appends at the end;
  * JS template-literal interpolation is string concatenation;
  * `Array.prototype.toString` is `String.intercalate ","`;
  * the regexes in the bailout pipeline are alternations of literals (one
    anchored with `^`), embedded as substring / startsWith tests;
  * `Object.assign({}, d, o)` is modelled on association lists over a JS
    value type `JsVal`.
-/

/-- `GimbalJobReport` typedef: one measured metric within a job.
`success` is an optional boolean (absent = `undefined`). -/
structure GimbalJobReport where
  label : String
  value : String
  threshold : String
  success : Option Bool
deriving DecidableEq, Repr

/-- `GimbalJobResult` typedef: one audited category with its reports. -/
structure GimbalJobResult where
  label : String
  data : List GimbalJobReport
  success : Option Bool
deriving DecidableEq, Repr

/-- `GimbalResults` typedef: the top-level audit run result tree. -/
structure GimbalResults where
  data : List GimbalJobResult
  success : Option Bool
deriving DecidableEq, Repr

/-- The compilation handle's two diagnostics sinks. -/
structure Compilation where
  errors : List String
  warnings : List String
deriving DecidableEq, Repr

/-- JS truthiness of a `boolean | undefined` value: only `true` is truthy;
`false` and `undefined` are both falsy. -/
def isTruthy : Option Bool → Bool
  | some b => b
  | none => false

/-- The template literal
`[Gimbal: ${category.label}] ${failure.label}: ${failure.value} (threshold ${failure.threshold}).` -/
def formatMsg (category : GimbalJobResult) (failure : GimbalJobReport) : String :=
  "[Gimbal: " ++ category.label ++ "] " ++ failure.label ++ ": " ++
    failure.value ++ " (threshold " ++ failure.threshold ++ ")."

/-- `if (this.cfg.bail) compilation.errors.push(msg) else compilation.warnings.push(msg)`. -/
def pushMsg (bail : Bool) (comp : Compilation) (msg : String) : Compilation :=
  if bail then { comp with errors := comp.errors ++ [msg] }
  else { comp with warnings := comp.warnings ++ [msg] }

/-- `processMessages(compilation, results)`:
filter the jobs by `!result.success`, then within each such job filter the
reports by `!result.success`, format each remaining failure and push it to
the sink selected by `bail`. -/
def processMessages (bail : Bool) (comp : Compilation) (results : GimbalResults) :
    Compilation :=
  let failed := results.data.filter (fun result => !(isTruthy result.success))
  failed.foldl
    (fun comp category =>
      (category.data.filter (fun result => !(isTruthy result.success))).foldl
        (fun comp failure => pushMsg bail comp (formatMsg category failure)) comp)
    comp

/-- The messages one failing job contributes, in report order. -/
def jobMessages (category : GimbalJobResult) : List String :=
  (category.data.filter (fun result => !(isTruthy result.success))).map
    (formatMsg category)

/-- All messages `processMessages` pushes, in tree traversal order. -/
def failureMessages (results : GimbalResults) : List String :=
  ((results.data.filter (fun result => !(isTruthy result.success))).map
    jobMessages).flatten

/-- The selected (job, report) pairs, in tree traversal order. -/
def selectedPairs (results : GimbalResults) :
    List (GimbalJobResult × GimbalJobReport) :=
  (results.data.filter (fun result => !(isTruthy result.success))).flatMap
    (fun category =>
      (category.data.filter (fun result => !(isTruthy result.success))).map
        (fun failure => (category, failure)))

/-- The number of reports with falsy `success` under jobs with falsy
`success`: what the code actually counts. -/
def codeFailureCount (results : GimbalResults) : Nat :=
  ((results.data.filter (fun result => !(isTruthy result.success))).map
    (fun category =>
      (category.data.filter (fun result => !(isTruthy result.success))).length)).sum

/-- Following the spec's words (for comparison with the code): the count of
Reports with `success === false` nested under JobResults with
`success === false`, selection strict at both levels. -/
def specStrictFailureCount (results : GimbalResults) : Nat :=
  ((results.data.filter (fun result => result.success = some false)).map
    (fun category =>
      (category.data.filter (fun result => result.success = some false)).length)).sum

/-- `executeAudits(context, compilation, cb)` observable behaviour:
`compilation` is the resulting sink state, `auditInvoked` records whether the
Audit Runner was called, `callbackInvoked` whether `cb()` ran. `results`
stands for the value the external Audit Runner would return. -/
structure ExecResult where
  compilation : Compilation
  auditInvoked : Bool
  callbackInvoked : Bool
deriving DecidableEq, Repr

/-- `executeAudits`: guard on `process.env.NODE_ENV !== 'production'`
(immediate `cb()`), otherwise run the audit and, when
`results.success === false` (strict), process the messages; then `cb()`. -/
def executeAudits (nodeEnv : String) (bail : Bool) (comp : Compilation)
    (results : GimbalResults) : ExecResult :=
  if nodeEnv ≠ "production" then
    { compilation := comp, auditInvoked := false, callbackInvoked := true }
  else
    let comp' :=
      if results.success = some false then processMessages bail comp results
      else comp
    { compilation := comp', auditInvoked := true, callbackInvoked := true }

/-- Scenario A result tree:
`{data:[{label:"size", success:false, data:[{label:"main.js", value:"500kb", threshold:"400kb", success:false}]}]}`. -/
def treeA : GimbalResults :=
  { data := [{ label := "size",
               data := [{ label := "main.js", value := "500kb",
                          threshold := "400kb", success := some false }],
               success := some false }],
    success := none }

/-- A tree whose only job has `success` absent (undefined) while its only
report has `success: false`; the top level is explicitly failed. -/
def treeB : GimbalResults :=
  { data := [{ label := "size",
               data := [{ label := "main.js", value := "500kb",
                          threshold := "400kb", success := some false }],
               success := none }],
    success := some false }

/-- The `optimizationBailout` config value: `boolean | string`. -/
inductive OptBail where
  | bool : Bool → OptBail
  | str : String → OptBail
deriving DecidableEq, Repr

/-- JS truthiness of a `boolean | string` value: `false` and the empty
string are falsy. -/
def optBailTruthy : OptBail → Bool
  | .bool b => b
  | .str s => if s = "" then false else true

/-- A module's `optimizationBailout` field as seen by the `done` hook:
absent, some non-array value, or an array of reason strings. -/
inductive OBField where
  | missing
  | nonArrayVal
  | arr : List String → OBField
deriving DecidableEq, Repr

/-- `Array.isArray(mod.optimizationBailout)`. -/
def obIsArray : OBField → Bool
  | .arr _ => true
  | _ => false

/-- The reason list carried by an array-valued field (irrelevant otherwise). -/
def obList : OBField → List String
  | .arr l => l
  | _ => []

/-- One entry of `stats.toJson(...).modules`. -/
structure WebpackModule where
  name : String
  optimizationBailout : OBField
  chunks : List String
deriving DecidableEq, Repr

/-- One `[name, reasons, chunks]` triple of the bailout report. -/
structure BailoutRecord where
  name : String
  reasons : List String
  chunks : List String
deriving DecidableEq, Repr

/-- `Array.isArray(mod.optimizationBailout) && mod.optimizationBailout.length
? [mod.name, mod.optimizationBailout, mod.chunks] : false` — the `false`
branch is `none`, discarded by the subsequent `.filter(Boolean)`. -/
def bailoutRecordOf (mod : WebpackModule) : Option BailoutRecord :=
  if obIsArray mod.optimizationBailout &&
      !((obList mod.optimizationBailout).length == 0) then
    some { name := mod.name, reasons := obList mod.optimizationBailout,
           chunks := mod.chunks }
  else none

/-- `.map(...).filter(Boolean)`: the per-module records in module order. -/
def extractBailout (modules : List WebpackModule) : List BailoutRecord :=
  (modules.map bailoutRecordOf).reduceOption

/-- `leadsWith pat l`: `pat` is an initial segment of `l`. -/
def leadsWith : List Char → List Char → Bool
  | [], _ => true
  | _ :: _, [] => false
  | a :: as, b :: bs => if a = b then leadsWith as bs else false

/-- `occursIn pat l`: `pat` occurs contiguously somewhere in `l`. -/
def occursIn (pat : List Char) : List Char → Bool
  | [] => leadsWith pat []
  | b :: bs => leadsWith pat (b :: bs) || occursIn pat bs

/-- `s` contains `pat` as a substring. -/
def strContains (s pat : String) : Bool := occursIn pat.toList s.toList

/-- `name.match(/node_modules|\(webpack\)|\(ignored\)|^multi/)` as a boolean:
the three unanchored alternatives are substring tests, the `^multi`
alternative is a startsWith test. -/
def nameNoise (name : String) : Bool :=
  strContains name "node_modules" ||
    strContains name "(webpack)" ||
    strContains name "(ignored)" ||
    leadsWith "multi".toList name.toList

/-- `Array.prototype.toString`: elements joined with commas. -/
def arrayToString (l : List String) : String := String.intercalate "," l

/-- `modules.toString().match(/import\(\)|HMR/)` as a boolean, where
`modules` is the destructured second element of the record — the reasons
list (the chunks are NOT consulted). -/
def reasonNoise (reasons : List String) : Bool :=
  strContains (arrayToString reasons) "import()" ||
    strContains (arrayToString reasons) "HMR"

/-- The full bailout pipeline of the `done` hook: extract records, drop
noisy names, drop noisy reasons. -/
def bailoutReport (modules : List WebpackModule) : List BailoutRecord :=
  ((extractBailout modules).filter (fun record => !(nameNoise record.name))).filter
    (fun record => !(reasonNoise record.reasons))

/-- `typeof optimizationBailout === 'string' ? optimizationBailout : 'bailout.json'`. -/
def bailoutFileName : OptBail → String
  | .str s => s
  | .bool _ => "bailout.json"

/-- Observable effect of `apply`'s bailout branch: the `done` hook is only
installed when `this.cfg.optimizationBailout` is truthy; when it is, one
file write of the filtered report happens, to `bailoutFileName`. -/
def bailoutWrite (ob : OptBail) (modules : List WebpackModule) :
    Option (String × List BailoutRecord) :=
  if optBailTruthy ob then some (bailoutFileName ob, bailoutReport modules)
  else none

/-- The concrete module of scenario E. -/
def moduleE : WebpackModule :=
  { name := "./src/app.js",
    optimizationBailout :=
      .arr ["ModuleConcatenation bailout: Module is not an ECMAScript module"],
    chunks := ["main"] }

/-- A module whose chunks text contains `HMR` but whose reasons are clean. -/
def moduleH : WebpackModule :=
  { name := "./src/h.js", optimizationBailout := .arr ["reasonX"],
    chunks := ["HMRchunk"] }

/-- A JS value, as far as the configuration objects need: booleans, strings
and (nested) objects given as key/value lists in insertion order. -/
inductive JsVal where
  | bool : Bool → JsVal
  | str : String → JsVal
  | obj : List (String × JsVal) → JsVal

/-- Property lookup on a JS object (first occurrence of the key). -/
def jlookup {V : Type} : List (String × V) → String → Option V
  | [], _ => none
  | (k, v) :: rest, key => if k = key then some v else jlookup rest key

/-- Take the first defined value (used to state shallow-merge lookups). -/
def firstSome {V : Type} : Option V → Option V → Option V
  | some v, _ => some v
  | none, o => o

/-- `Object.assign({}, d, o)`: the keys of `d` in order, each taking `o`'s
value when `o` has the key, followed by the keys of `o` absent from `d`. -/
def assign {V : Type} (d o : List (String × V)) : List (String × V) :=
  d.map (fun kv => (kv.1, (jlookup o kv.1).getD kv.2)) ++
    o.filter (fun kv => (jlookup d kv.1).isNone)

/-- The `defaults.options` object literal of the constructor. -/
def defaultOptionsObj : List (String × JsVal) :=
  [("buildDir", .str ""), ("comment", .bool true), ("verbose", .bool false),
   ("checkThresholds", .bool true), ("size", .bool true),
   ("calculateUnusedSource", .bool true), ("heapSnapshot", .bool true),
   ("lighthouse", .bool true)]

/-- The `defaults` object literal of the constructor (part_000 variant,
which also defaults `optimizationBailout`). -/
def defaultsObj : List (String × JsVal) :=
  [("bail", .bool false), ("optimizationBailout", .bool false),
   ("options", .obj defaultOptionsObj)]

/-- `this.cfg = Object.assign({}, defaults, options)`. -/
def mkCfg (options : List (String × JsVal)) : List (String × JsVal) :=
  assign defaultsObj options

/-- The nested `options` object of the merged configuration (empty when the
`options` key is absent or not an object). -/
def cfgOptions (options : List (String × JsVal)) : List (String × JsVal) :=
  match jlookup (mkCfg options) "options" with
  | some (.obj o) => o
  | _ => []

/-- Following the spec's words (for comparison with the code): the nested
`options` sub-object shallow-merged over its own defaults. -/
def specMergedOptions (options : List (String × JsVal)) : List (String × JsVal) :=
  match jlookup options "options" with
  | some (.obj o) => assign defaultOptionsObj o
  | _ => defaultOptionsObj

/-- The concrete constructor argument `{options: {size: false}}`. -/
def optsPartial : List (String × JsVal) :=
  [("options", .obj [("size", .bool false)])]

/-- The record scenario E expects for `moduleE`. -/
def recordE : BailoutRecord :=
  { name := "./src/app.js",
    reasons := ["ModuleConcatenation bailout: Module is not an ECMAScript module"],
    chunks := ["main"] }

/-- The record the pipeline produces for `moduleH`. -/
def recordH : BailoutRecord :=
  { name := "./src/h.js", reasons := ["reasonX"], chunks := ["HMRchunk"] }

/-- Folding `pushMsg` over a list of messages appends them all to the sink
selected by `bail` and leaves the other sink unchanged. -/
lemma foldl_pushMsg (bail : Bool) (msgs : List String) (comp : Compilation) :
    msgs.foldl (pushMsg bail) comp =
      { errors := comp.errors ++ (if bail then msgs else []),
        warnings := comp.warnings ++ (if bail then [] else msgs) } := by
  induction msgs generalizing comp with
  | nil => cases comp <;> simp
  | cons m ms ih =>
    cases bail <;> simp [pushMsg, ih, List.append_assoc]

/-- The inner report loop of `processMessages` is a `pushMsg` fold over the
job's formatted messages. -/
lemma inner_loop_eq (bail : Bool) (category : GimbalJobResult) (comp : Compilation) :
    (category.data.filter (fun result => !(isTruthy result.success))).foldl
        (fun comp failure => pushMsg bail comp (formatMsg category failure)) comp =
      (jobMessages category).foldl (pushMsg bail) comp := by
  simp [jobMessages, List.foldl_map]

/-- Characterisation of `processMessages`: it appends `failureMessages` to
the sink selected by `bail` and leaves the other sink untouched. -/
lemma processMessages_eq (bail : Bool) (comp : Compilation) (results : GimbalResults) :
    processMessages bail comp results =
      { errors := comp.errors ++ (if bail then failureMessages results else []),
        warnings := comp.warnings ++ (if bail then [] else failureMessages results) } := by
  unfold processMessages failureMessages
  generalize results.data.filter (fun result => !(isTruthy result.success)) = jobs
  induction jobs generalizing comp with
  | nil => cases comp <;> cases bail <;> simp
  | cons j js ih =>
    simp only [List.foldl_cons, List.map_cons, List.flatten]
    rw [inner_loop_eq, foldl_pushMsg, ih]
    cases bail <;> simp [List.append_assoc]

/-- The messages' total count is `codeFailureCount`. -/
lemma failureMessages_length (results : GimbalResults) :
    (failureMessages results).length = codeFailureCount results := by
  have h : ∀ c : GimbalJobResult, (jobMessages c).length =
      (c.data.filter (fun result => !(isTruthy result.success))).length := by
    intro c; simp [jobMessages]
  simp [failureMessages, codeFailureCount, List.length_flatten, List.map_map,
    Function.comp_def, h]

/-- The emitted messages are exactly the selected pairs, formatted. -/
lemma failureMessages_eq_pairs (results : GimbalResults) :
    failureMessages results =
      (selectedPairs results).map (fun p => formatMsg p.1 p.2) := by
  unfold failureMessages selectedPairs
  generalize results.data.filter (fun result => !(isTruthy result.success)) = jobs
  induction jobs with
  | nil => simp
  | cons j js ih => simp [jobMessages, List.map_map, Function.comp_def, ih]

/-- C1 (amended): the total number of messages `processMessages` appends to
the two sinks equals the number of reports with non-`true` `success` nested
under jobs with non-`true` `success` (the filters test JS truthiness, so an
absent `success` is selected too). -/
theorem gimbal_C1_message_count (bail : Bool) (comp : Compilation)
    (results : GimbalResults) :
    (processMessages bail comp results).errors.length +
        (processMessages bail comp results).warnings.length =
      comp.errors.length + comp.warnings.length + codeFailureCount results := by
  rw [processMessages_eq]
  cases bail <;> simp [failureMessages_length] <;> omega

/-- C1 (counterexample): a tree whose only job lacks `success` (undefined)
but whose report has `success: false` produces one message, while the
claim's strict `success === false` double count is zero. -/
theorem gimbal_C1_strictness_counterexample :
    (executeAudits "production" false { errors := [], warnings := [] }
        treeB).compilation.warnings.length = 1 ∧
      specStrictFailureCount treeB = 0 := by
  constructor <;> rfl

/-- C2: every emitted message lands in exactly one sink, chosen solely by
`bail`: with `bail = true` all messages go to `errors` and `warnings` is
unchanged; with `bail = false` all messages go to `warnings` and `errors`
is unchanged. -/
theorem gimbal_C2_policy_routing (comp : Compilation) (results : GimbalResults) :
    (processMessages true comp results).errors =
        comp.errors ++ failureMessages results ∧
      (processMessages true comp results).warnings = comp.warnings ∧
      (processMessages false comp results).warnings =
        comp.warnings ++ failureMessages results ∧
      (processMessages false comp results).errors = comp.errors := by
  simp [processMessages_eq]

/-- C3: each selected (job, report) pair yields exactly one message of the
exact interpolated shape, in tree traversal order; and on scenario A's tree
with `bail = false` the warnings sink receives exactly
`[Gimbal: size] main.js: 500kb (threshold 400kb).` while the errors sink
receives nothing. -/
theorem gimbal_C3_format_and_order :
    (∀ (comp : Compilation) (results : GimbalResults),
        (processMessages false comp results).warnings =
          comp.warnings ++ (selectedPairs results).map (fun p =>
            "[Gimbal: " ++ p.1.label ++ "] " ++ p.2.label ++ ": " ++
              p.2.value ++ " (threshold " ++ p.2.threshold ++ ").")) ∧
      processMessages false { errors := [], warnings := [] } treeA =
        { errors := [],
          warnings := ["[Gimbal: size] main.js: 500kb (threshold 400kb)."] } := by
  constructor
  · intro comp results
    rw [processMessages_eq]
    simp [failureMessages_eq_pairs, formatMsg]
  · rfl

/-- C4: outside production mode, `executeAudits` never invokes the Audit
Runner, emits no diagnostics, and invokes the completion callback
immediately. -/
theorem gimbal_C4_production_guard (nodeEnv : String) (bail : Bool)
    (comp : Compilation) (results : GimbalResults) (h : nodeEnv ≠ "production") :
    executeAudits nodeEnv bail comp results =
      { compilation := comp, auditInvoked := false, callbackInvoked := true } := by
  simp [executeAudits, h]

theorem gimbal_C4_production_guard_witness :
    ("development" ≠ "production") ∧
      executeAudits "development" true { errors := ["e"], warnings := ["w"] }
          treeA =
        { compilation := { errors := ["e"], warnings := ["w"] },
          auditInvoked := false, callbackInvoked := true } :=
  ⟨by decide,
    gimbal_C4_production_guard "development" true
      { errors := ["e"], warnings := ["w"] } treeA (by decide)⟩

/-- C10: `processMessages` only appends: both sinks keep their previous
contents as a prefix, and the sink not selected by `bail` is left entirely
unchanged. -/
theorem gimbal_C10_append_only_frame (bail : Bool) (comp : Compilation)
    (results : GimbalResults) :
    ∃ e w, (processMessages bail comp results).errors = comp.errors ++ e ∧
      (processMessages bail comp results).warnings = comp.warnings ++ w ∧
      (if bail then w else e) = [] := by
  cases bail with
  | false =>
    exact ⟨[], failureMessages results, by simp [processMessages_eq],
      by simp [processMessages_eq], rfl⟩
  | true =>
    exact ⟨failureMessages results, [], by simp [processMessages_eq],
      by simp [processMessages_eq], rfl⟩

/-- Lookup on the mapped (defaults) half of `assign`. -/
lemma jlookup_assign_map {V : Type} (d o : List (String × V)) (key : String) :
    jlookup (d.map (fun kv => (kv.1, (jlookup o kv.1).getD kv.2))) key =
      (jlookup d key).map (fun v => (jlookup o key).getD v) := by
  induction d with
  | nil => rfl
  | cons kv rest ih =>
    obtain ⟨k, v⟩ := kv
    by_cases h : k = key
    · subst h; simp [jlookup]
    · simp [jlookup, h, ih]

/-- Lookup on the filtered (new-keys) half of `assign`. -/
lemma jlookup_assign_filter {V : Type} (d o : List (String × V)) (key : String) :
    jlookup (o.filter (fun kv => (jlookup d kv.1).isNone)) key =
      if (jlookup d key).isNone then jlookup o key else none := by
  induction o with
  | nil => simp [jlookup]
  | cons kv rest ih =>
    obtain ⟨k, v⟩ := kv
    by_cases hk : k = key
    · subst hk
      by_cases hp : (jlookup d k).isNone
      · simp [List.filter_cons, hp, jlookup, ih]
      · simp [List.filter_cons, hp, jlookup, ih]
    · by_cases hp : (jlookup d k).isNone
      · simp [List.filter_cons, hp, jlookup, hk, ih]
      · simp [List.filter_cons, hp, jlookup, hk, ih]

/-- Lookup on a list concatenation takes the first hit. -/
lemma jlookup_append {V : Type} (a b : List (String × V)) (key : String) :
    jlookup (a ++ b) key = firstSome (jlookup a key) (jlookup b key) := by
  induction a with
  | nil => rfl
  | cons kv rest ih =>
    obtain ⟨k, v⟩ := kv
    by_cases h : k = key
    · simp [jlookup, h, firstSome]
    · simp [jlookup, h, ih]

/-- `Object.assign({}, d, o)` is a shallow merge at the level of lookups:
`o`'s value when present, otherwise `d`'s. -/
lemma jlookup_assign {V : Type} (d o : List (String × V)) (key : String) :
    jlookup (assign d o) key = firstSome (jlookup o key) (jlookup d key) := by
  unfold assign
  rw [jlookup_append, jlookup_assign_map, jlookup_assign_filter]
  cases hd : jlookup d key with
  | none => cases ho : jlookup o key <;> simp [firstSome]
  | some v => cases ho : jlookup o key <;> simp [firstSome]

/-- C5 (counterexample): with the partial argument `{options: {size: false}}`
the merged configuration's nested options object has no `comment` key at
all — the user's sub-object replaced the default one wholesale — while the
nested shallow merge the claim describes would keep `comment = true`. -/
theorem gimbal_C5_nested_merge_counterexample :
    jlookup (cfgOptions optsPartial) "comment" = none ∧
      jlookup (specMergedOptions optsPartial) "comment" =
        some (JsVal.bool true) := by
  exact ⟨rfl, rfl⟩

/-- C5 (amended): the constructor's merge is shallow at the top level only:
each top-level key takes the caller's value when present (unknown keys pass
through) and the default otherwise, and in particular a caller-supplied
`options` sub-object replaces the default options object wholesale instead
of being merged with it. -/
theorem gimbal_C5_shallow_merge (options : List (String × JsVal)) (key : String) :
    jlookup (mkCfg options) key =
      firstSome (jlookup options key) (jlookup defaultsObj key) :=
  jlookup_assign defaultsObj options key

/-- C6: the bailout extractor emits, in module order, exactly one record per
module whose `optimizationBailout` field is an actual non-empty array, and
nothing for the other modules; scenario E's module yields its record. -/
theorem gimbal_C6_record_extraction (modules : List WebpackModule) :
    extractBailout modules =
      (modules.filter (fun m =>
          match m.optimizationBailout with
          | .arr (_ :: _) => true
          | _ => false)).map
        (fun m => { name := m.name, reasons := obList m.optimizationBailout,
                    chunks := m.chunks }) ∧
      extractBailout [moduleE] = [recordE] := by
  refine ⟨?_, rfl⟩
  induction modules with
  | nil => rfl
  | cons m ms ih =>
    cases h : m.optimizationBailout with
    | missing =>
      simp [extractBailout, bailoutRecordOf, obIsArray, h, List.filter_cons,
        ih, List.reduceOption] at *
      exact ih
    | nonArrayVal =>
      simp [extractBailout, bailoutRecordOf, obIsArray, h, List.filter_cons,
        ih, List.reduceOption] at *
      exact ih
    | arr l =>
      cases l with
      | nil =>
        simp [extractBailout, bailoutRecordOf, obIsArray, obList, h,
          List.filter_cons, List.reduceOption] at *
        exact ih
      | cons r rs =>
        simp [extractBailout, bailoutRecordOf, obIsArray, obList, h,
          List.filter_cons, List.reduceOption] at *
        exact ih

/-- C7: every record in the final report has a name containing none of
`node_modules`, `(webpack)`, `(ignored)` and not starting with `multi`;
and a record whose name matches none of the four patterns passes the name
filter step. -/
theorem gimbal_C7_name_filter (modules : List WebpackModule)
    (r : BailoutRecord) (l : List BailoutRecord) :
    (r ∈ bailoutReport modules →
        strContains r.name "node_modules" = false ∧
        strContains r.name "(webpack)" = false ∧
        strContains r.name "(ignored)" = false ∧
        leadsWith "multi".toList r.name.toList = false) ∧
      (nameNoise r.name = false →
        (r ∈ l.filter (fun record => !(nameNoise record.name)) ↔ r ∈ l)) := by
  constructor
  · intro hr
    have h1 : r ∈ (extractBailout modules).filter
        (fun record => !(nameNoise record.name)) :=
      (List.mem_filter.mp hr).1
    have h2 : nameNoise r.name = false := by
      have := (List.mem_filter.mp h1).2
      simpa using this
    unfold nameNoise at h2
    simp only [Bool.or_eq_false_iff] at h2
    exact ⟨h2.1.1.1, h2.1.1.2, h2.1.2, h2.2⟩
  · intro hnn
    constructor
    · intro h; exact (List.mem_filter.mp h).1
    · intro h; exact List.mem_filter.mpr ⟨h, by simp [hnn]⟩

theorem gimbal_C7_name_filter_witness :
    ((strContains recordE.name "node_modules" = false ∧
        strContains recordE.name "(webpack)" = false ∧
        strContains recordE.name "(ignored)" = false ∧
        leadsWith "multi".toList recordE.name.toList = false) ∧
      (recordE ∈ [recordE].filter (fun record => !(nameNoise record.name)) ↔
        recordE ∈ [recordE])) :=
  ⟨(gimbal_C7_name_filter [moduleE] recordE [recordE]).1 (by decide),
    (gimbal_C7_name_filter [moduleE] recordE [recordE]).2 (by decide)⟩

/-- C8 (counterexample): a record whose chunks serialize to text containing
`HMR` (but whose reasons are clean) survives the final report — the code's
reason filter destructures only the second element of the triple, the
reasons, and never consults the chunks. -/
theorem gimbal_C8_chunks_counterexample :
    recordH ∈ bailoutReport [moduleH] ∧
      strContains (arrayToString recordH.chunks) "HMR" = true := by
  exact ⟨by decide, by decide⟩

/-- C8 (amended): every record in the final report has a reasons list whose
comma-joined serialization contains neither `import()` nor `HMR` (the
chunks are not consulted); a record whose serialized reasons contain
neither marker passes the reason filter step. -/
theorem gimbal_C8_reason_filter (modules : List WebpackModule)
    (r : BailoutRecord) (l : List BailoutRecord) :
    (r ∈ bailoutReport modules →
        strContains (arrayToString r.reasons) "import()" = false ∧
        strContains (arrayToString r.reasons) "HMR" = false) ∧
      (reasonNoise r.reasons = false →
        (r ∈ l.filter (fun record => !(reasonNoise record.reasons)) ↔ r ∈ l)) := by
  constructor
  · intro hr
    have h2 : reasonNoise r.reasons = false := by
      have := (List.mem_filter.mp hr).2
      simpa using this
    unfold reasonNoise at h2
    simp only [Bool.or_eq_false_iff] at h2
    exact h2
  · intro hnn
    constructor
    · intro h; exact (List.mem_filter.mp h).1
    · intro h; exact List.mem_filter.mpr ⟨h, by simp [hnn]⟩

theorem gimbal_C8_reason_filter_witness :
    ((strContains (arrayToString recordE.reasons) "import()" = false ∧
        strContains (arrayToString recordE.reasons) "HMR" = false) ∧
      (recordE ∈ [recordE].filter (fun record => !(reasonNoise record.reasons)) ↔
        recordE ∈ [recordE])) :=
  ⟨(gimbal_C8_reason_filter [moduleE] recordE [recordE]).1 (by decide),
    (gimbal_C8_reason_filter [moduleE] recordE [recordE]).2 (by decide)⟩

/-- C9 (counterexample): with `optimizationBailout` set to the empty string
the `done` hook is gated off entirely (`if (this.cfg.optimizationBailout)`
sees a falsy value), so no file is written at all — not a write to the file
named by the empty string — even though the report is non-empty. -/
theorem gimbal_C9_empty_string_counterexample :
    bailoutWrite (OptBail.str "") [moduleE] = none ∧
      bailoutReport [moduleE] = [recordE] := by
  exact ⟨rfl, by decide⟩

/-- C9 (amended): for every non-empty string the report is written to a file
of exactly that name; for the boolean `true` it is written to
`bailout.json`; the empty string is falsy and disables the write. -/
theorem gimbal_C9_file_name (s : String) (modules : List WebpackModule) :
    (s ≠ "" → bailoutWrite (.str s) modules =
        some (s, bailoutReport modules)) ∧
      bailoutWrite (.bool true) modules =
        some ("bailout.json", bailoutReport modules) := by
  constructor
  · intro hs
    simp [bailoutWrite, optBailTruthy, bailoutFileName, hs]
  · rfl

theorem gimbal_C9_file_name_witness :
    ("out.json" ≠ "") ∧
      bailoutWrite (OptBail.str "out.json") [] =
        some ("out.json", bailoutReport []) ∧
      bailoutWrite (OptBail.bool true) [] =
        some ("bailout.json", bailoutReport []) :=
  ⟨by decide, (gimbal_C9_file_name "out.json" []).1 (by decide),
    (gimbal_C9_file_name "out.json" []).2⟩
